import Mathlib

/-!
# Shallow embedding of the shopping-cart package

This file embeds the `Database` class (`shopping_cart/database.py`) and the
`ShoppingCart` class (`shopping_cart/api.py`) of the repository and proves
properties of the embedded operations.

Modelling conventions:
* SQLite `REAL` prices are modelled as `Rat`; item names as `String`.
* The `cart` table is a list of rows in physical order; SQLite assigns a new
  `INTEGER PRIMARY KEY` rowid as (maximal existing rowid) + 1, and 1 for an
  empty table.
* Python values passed to `ShoppingCart.add_item` are modelled by `PyVal`,
  with `isinstance` checks translated per constructor (a Python `bool` is an
  `int`, so `isinstance(True, (int, float))` holds).
* A Python argument that may be `None` is an `Option`; Python truthiness of
  such an argument (`if new_name:`) is `false` for `none`, for the empty
  string and for the number `0`, as in CPython.
* Exceptions are modelled with `Except`; a caught-and-logged exception
  produces a normal (`.ok`) result.
-/

/-- A row of the SQLite `cart` table: `id INTEGER PRIMARY KEY, item TEXT,
price REAL`. -/
structure Row where
  id : Nat
  item : String
  price : Rat
deriving DecidableEq, Repr

/-- The state of the `Database` class: the `cart` table as a list of rows in
physical order. -/
structure Database where
  rows : List Row
deriving DecidableEq, Repr

/-- An element of `ShoppingCart.items`: the dictionary
`{"item": ..., "price": ..., "id": ...}`; `id` is `none` for an entry whose
`"id"` key has not been set yet (it is backfilled after the INSERT). -/
structure Entry where
  item : String
  price : Rat
  id : Option Nat
deriving DecidableEq, Repr

/-- The state of the `ShoppingCart` class: the in-memory mirror
`self.items` and the backing `Database`. -/
structure Cart where
  items : List Entry
  db : Database
deriving DecidableEq, Repr

/-- A Python value passed as an argument to `ShoppingCart.add_item`. -/
inductive PyVal where
  | str (s : String)
  | int (n : Int)
  | float (q : Rat)
  | bool (b : Bool)
  | none
deriving DecidableEq, Repr

/-- Exceptions raised by the embedded operations. -/
inductive PyErr where
  | valueError
  | dbError
deriving DecidableEq, Repr

/-- `isinstance(v, str)`. -/
def pyIsStr : PyVal → Bool
  | .str _ => true
  | _ => false

/-- `isinstance(v, (int, float))`; `true` for a Python `bool`, which is a
subclass of `int`. -/
def pyIsNum : PyVal → Bool
  | .int _ => true
  | .float _ => true
  | .bool _ => true
  | _ => false

/-- The string payload of a `PyVal` (only used under a `pyIsStr` guard). -/
def pyGetStr : PyVal → String
  | .str s => s
  | _ => ""

/-- The numeric payload of a `PyVal` as a rational (only used under a
`pyIsNum` guard); Python `True`/`False` count as `1`/`0`. -/
def pyToRat : PyVal → Rat
  | .int n => (n : Rat)
  | .float q => q
  | .bool b => if b then 1 else 0
  | _ => 0

/-- Python truthiness of an optional string argument: `None` and `""` are
falsy. -/
def truthyStr : Option String → Bool
  | Option.none => false
  | Option.some s => decide (s ≠ "")

/-- Python truthiness of an optional numeric argument: `None` and `0` are
falsy. -/
def truthyRat : Option Rat → Bool
  | Option.none => false
  | Option.some q => decide (q ≠ 0)

/-- The rowid SQLite assigns to the next inserted row of a table whose rows
are `rows`: max existing rowid + 1 (so 1 for an empty table). -/
def rowsNextId (rows : List Row) : Nat :=
  rows.foldl (fun m r => max m r.id) 0 + 1

/-- `Database.add_item`: `INSERT INTO cart (item, price) VALUES (?, ?)`,
returning `cursor.lastrowid`. -/
def Database.add_item (db : Database) (item : String) (price : Rat) :
    Database × Nat :=
  let item_id := rowsNextId db.rows
  (⟨db.rows ++ [⟨item_id, item, price⟩]⟩, item_id)

/-- `Database.remove_item`: `DELETE FROM cart WHERE item = ?` — deletes every
row whose `item` column equals `item`. -/
def Database.remove_item (db : Database) (item : String) : Database :=
  ⟨db.rows.filter fun r => !(r.item == item)⟩

/-- `Database.update_item(old_name, new_name=None, new_price=None)`:

```
if new_name and new_price:   UPDATE cart SET item = ?, price = ? WHERE item = ?
elif new_name:               UPDATE cart SET item = ? WHERE item = ?
elif new_price:              UPDATE cart SET price = ? WHERE item = ?
```

The branch conditions are Python truthiness tests, so `new_price = 0` and
`new_name = ""` behave like absent arguments. -/
def Database.update_item (db : Database) (old_name : String)
    (new_name : Option String) (new_price : Option Rat) : Database :=
  if truthyStr new_name && truthyRat new_price then
    ⟨db.rows.map fun r =>
      if r.item = old_name then
        { r with item := new_name.getD r.item, price := new_price.getD r.price }
      else r⟩
  else if truthyStr new_name then
    ⟨db.rows.map fun r =>
      if r.item = old_name then { r with item := new_name.getD r.item } else r⟩
  else if truthyRat new_price then
    ⟨db.rows.map fun r =>
      if r.item = old_name then { r with price := new_price.getD r.price } else r⟩
  else db

/-- The `INSERT INTO cart_new(item, price) SELECT item, price FROM cart` step
of `Database.update_schema` for `current_version < 1`: rows are copied in
physical order into the freshly created empty `cart_new` table, which assigns
each one a new rowid; the `id` column is not copied. -/
def Database.update_schema_copy (old : List Row) : List Row :=
  old.foldl (fun acc r => acc ++ [⟨rowsNextId acc, r.item, r.price⟩]) []

/-- `ShoppingCart.add_item(item, price)` with the outcome of the
`self.db.add_item` INSERT given by `storeOk`:

1. validates `isinstance(item, str)` and `isinstance(price, (int, float))`,
   raising `ValueError` (state untouched) otherwise;
2. appends `{"item": item, "price": price}` to `self.items`;
3. runs the INSERT; when it succeeds (`storeOk = true`) the generated id is
   backfilled into the appended dictionary and returned; when it raises
   (`storeOk = false`) the exception propagates, leaving the appended
   dictionary in `self.items` with no `"id"` key. -/
def ShoppingCart.add_item_run (c : Cart) (item price : PyVal)
    (storeOk : Bool) : Cart × Except PyErr Nat :=
  if !(pyIsStr item) || !(pyIsNum price) then
    (c, .error .valueError)
  else
    let item_data : Entry := ⟨pyGetStr item, pyToRat price, Option.none⟩
    if storeOk then
      let res := Database.add_item c.db item_data.item item_data.price
      (⟨c.items ++ [{ item_data with id := Option.some res.2 }], res.1⟩,
        .ok res.2)
    else
      (⟨c.items ++ [item_data], c.db⟩, .error .dbError)

/-- `ShoppingCart.add_item` in the run where the database INSERT succeeds. -/
def ShoppingCart.add_item (c : Cart) (item price : PyVal) :
    Cart × Except PyErr Nat :=
  ShoppingCart.add_item_run c item price true

/-- The in-memory loop of `ShoppingCart.remove_item`: scan `self.items`,
remove the first entry whose `"item"` equals `item`, then `break`. -/
def removeFirstEntry : List Entry → String → List Entry
  | [], _ => []
  | e :: es, item => if e.item == item then es else e :: removeFirstEntry es item

/-- `ShoppingCart.remove_item(item)`: removes the first in-memory match (if
any), then always calls `self.db.remove_item(item)`. -/
def ShoppingCart.remove_item (c : Cart) (item : String) : Cart :=
  ⟨removeFirstEntry c.items item, Database.remove_item c.db item⟩

/-- `ShoppingCart.get_item(item_name)`: first in-memory entry whose `"item"`
equals `item_name`, or `None`. -/
def ShoppingCart.get_item (c : Cart) (item_name : String) : Option Entry :=
  c.items.find? fun i => i.item == item_name

/-- `ShoppingCart.get_count()`: `len(self.items)`. -/
def ShoppingCart.get_count (c : Cart) : Nat :=
  c.items.length

/-- `ShoppingCart.get_total_price()`: `sum(i["price"] for i in self.items)`. -/
def ShoppingCart.get_total_price (c : Cart) : Rat :=
  (c.items.map Entry.price).sum

/-- The in-memory loop of `ShoppingCart.update_item`: on the first entry whose
`"item"` equals `old_name`, set `"item"` when `new_name is not None` and
`"price"` when `new_price is not None`, then `break`. -/
def updateFirstEntry : List Entry → String → Option String → Option Rat →
    List Entry
  | [], _, _, _ => []
  | e :: es, old_name, new_name, new_price =>
    if e.item == old_name then
      { e with item := new_name.getD e.item, price := new_price.getD e.price }
        :: es
    else e :: updateFirstEntry es old_name new_name new_price

/-- `ShoppingCart.update_item(old_name, new_name=None, new_price=None)`:
when both arguments are `None`, log a warning and return without touching
anything; otherwise update the first in-memory match and call
`self.db.update_item`. The `Bool` records whether `self.db.update_item` was
called. -/
def ShoppingCart.update_item (c : Cart) (old_name : String)
    (new_name : Option String) (new_price : Option Rat) : Cart × Bool :=
  match new_name, new_price with
  | Option.none, Option.none => (c, false)
  | new_name, new_price =>
    (⟨updateFirstEntry c.items old_name new_name new_price,
      Database.update_item c.db old_name new_name new_price⟩, true)

/-- An I/O error that `open(filename, 'w')` or a write can raise. -/
inductive IOErr where
  | fileNotFound
  | permissionDenied
  | diskFull
deriving DecidableEq, Repr

/-- `ShoppingCart.export_shopping_list(filename)` with the outcome of the
file I/O given by `io` (`none` = success). The body has no `try`/`except`,
so any I/O error propagates to the caller; on success one line
`"<item>, <price>"` per entry is written. -/
def ShoppingCart.export_shopping_list (c : Cart) (io : Option IOErr) :
    Except IOErr (List String) :=
  match io with
  | Option.some e => .error e
  | Option.none => .ok (c.items.map fun i => i.item ++ ", " ++ toString i.price)

/-- `ShoppingCart.export_cart_to_json(filename)` with the outcome of the file
I/O given by `io` (`none` = success): the body is wrapped in
`try ... except FileNotFoundError`, which logs and swallows exactly that
error; any other I/O error propagates. On success the dumped item list is
`some`; when the `FileNotFoundError` was swallowed, nothing was written and
the call still returns normally (`.ok Option.none`). -/
def ShoppingCart.export_cart_to_json (c : Cart) (io : Option IOErr) :
    Except IOErr (Option (List Entry)) :=
  match io with
  | Option.some .fileNotFound => .ok Option.none
  | Option.some e => .error e
  | Option.none => .ok (Option.some c.items)

/-- A fresh cart over an empty table. -/
def emptyCart : Cart :=
  ⟨[], ⟨[]⟩⟩

/-- Adding a list of (name, price) pairs in order via `add_item`. -/
def addAll (c : Cart) (ps : List (String × Rat)) : Cart :=
  ps.foldl (fun s p => (ShoppingCart.add_item s (.str p.1) (.float p.2)).1) c

/-! ## Helper lemmas -/

/-- Unfolding `ShoppingCart.add_item` on well-typed arguments. -/
theorem add_item_valid_eq (c : Cart) (s : String) (q : Rat) :
    ShoppingCart.add_item c (.str s) (.float q)
      = (⟨c.items ++ [⟨s, q, Option.some (rowsNextId c.db.rows)⟩],
          ⟨c.db.rows ++ [⟨rowsNextId c.db.rows, s, q⟩]⟩⟩,
         .ok (rowsNextId c.db.rows)) := rfl

/-- `removeFirstEntry` removes exactly the first name match. -/
theorem removeFirstEntry_first_match (l₁ : List Entry) (e : Entry)
    (l₂ : List Entry) (name : String) (h₁ : ∀ x ∈ l₁, x.item ≠ name)
    (h₂ : e.item = name) :
    removeFirstEntry (l₁ ++ e :: l₂) name = l₁ ++ l₂ := by
  induction l₁ with
  | nil => simp [removeFirstEntry, h₂]
  | cons a l ih =>
    have ha : a.item ≠ name := h₁ a (List.mem_cons_self a l)
    simp only [List.cons_append, removeFirstEntry, beq_iff_eq, if_neg ha]
    exact congrArg (a :: ·) (ih fun x hx => h₁ x (List.mem_cons_of_mem a hx))

/-- `removeFirstEntry` is the identity when no entry matches. -/
theorem removeFirstEntry_no_match (l : List Entry) (name : String)
    (h : ∀ x ∈ l, x.item ≠ name) :
    removeFirstEntry l name = l := by
  induction l with
  | nil => rfl
  | cons a l ih =>
    have ha : a.item ≠ name := h a (List.mem_cons_self a l)
    simp only [removeFirstEntry, beq_iff_eq, if_neg ha]
    exact congrArg (a :: ·) (ih fun x hx => h x (List.mem_cons_of_mem a hx))

/-- The price total of `addAll` accumulates the added prices. -/
theorem get_total_price_addAll (c : Cart) (ps : List (String × Rat)) :
    ShoppingCart.get_total_price (addAll c ps)
      = ShoppingCart.get_total_price c + (ps.map Prod.snd).sum := by
  induction ps generalizing c with
  | nil => simp [addAll]
  | cons p ps ih =>
    have hstep :
        addAll c (p :: ps)
          = addAll (ShoppingCart.add_item c (.str p.1) (.float p.2)).1 ps := rfl
    rw [hstep, ih, add_item_valid_eq]
    simp [ShoppingCart.get_total_price]
    ring

/-- `foldl max` over the ids `1, …, n`. -/
theorem foldl_max_range (n : Nat) :
    List.foldl max 0 ((List.range n).map (· + 1)) = n := by
  induction n with
  | zero => rfl
  | succ n ih =>
    rw [List.range_succ, List.map_append, List.foldl_append, ih]
    simp [Nat.max_eq_right (Nat.le_succ n)]

/-- `rowsNextId` on a table whose ids are exactly `1, …, length`. -/
theorem rowsNextId_of_ids (acc : List Row)
    (hid : acc.map Row.id = (List.range acc.length).map (· + 1)) :
    rowsNextId acc = acc.length + 1 := by
  unfold rowsNextId
  rw [show acc.foldl (fun m r => max m r.id) 0
        = List.foldl max 0 (acc.map Row.id) from (List.foldl_map Row.id max acc 0).symm]
  rw [hid, foldl_max_range]

/-- Invariant of the `INSERT INTO cart_new … SELECT` loop: starting from a
prefix whose ids are `1, …, k`, the copy extends the ids sequentially and
appends the (item, price) pairs in order. -/
theorem update_schema_copy_aux (old : List Row) (acc : List Row)
    (hid : acc.map Row.id = (List.range acc.length).map (· + 1)) :
    ((old.foldl (fun a r => a ++ [⟨rowsNextId a, r.item, r.price⟩]) acc).map Row.id
        = (List.range (acc.length + old.length)).map (· + 1)) ∧
    ((old.foldl (fun a r => a ++ [⟨rowsNextId a, r.item, r.price⟩]) acc).map
          (fun r => (r.item, r.price))
        = acc.map (fun r => (r.item, r.price))
          ++ old.map (fun r => (r.item, r.price))) := by
  induction old generalizing acc with
  | nil => simpa using hid
  | cons r old ih =>
    have hnext : rowsNextId acc = acc.length + 1 := rowsNextId_of_ids acc hid
    have hid' : (acc ++ [(⟨rowsNextId acc, r.item, r.price⟩ : Row)]).map Row.id
        = (List.range (acc ++ [(⟨rowsNextId acc, r.item, r.price⟩ : Row)]).length).map
            (· + 1) := by
      simp [hnext, hid, List.range_succ]
    have h := ih (acc ++ [(⟨rowsNextId acc, r.item, r.price⟩ : Row)]) hid'
    constructor
    · rw [List.foldl_cons, h.1]
      have hlen : (acc ++ [(⟨rowsNextId acc, r.item, r.price⟩ : Row)]).length
            + old.length = acc.length + (old.length + 1) := by
        simp only [List.length_append, List.length_cons, List.length_nil]
        omega
      rw [hlen]
      simp
    · rw [List.foldl_cons, h.2]
      simp

/-! ## Claims -/

/-- C1 (counterexample): `Database.update_item` does not treat
`new_price = 0` or `new_name = ""` as provided values. On a table holding
the row `(1, "A", 5)`, updating `"A"` with `new_price = 0` leaves the price
at `5` (the claim requires it to become `0`), and updating with
`new_name = ""` leaves the name `"A"` (the claim requires it to become
`""`). -/
theorem C1_counterexample :
    (Database.update_item ⟨[⟨1, "A", 5⟩]⟩ "A" Option.none
        (Option.some 0)).rows = [⟨1, "A", 5⟩] ∧
    (Database.update_item ⟨[⟨1, "A", 5⟩]⟩ "A" (Option.some "")
        Option.none).rows = [⟨1, "A", 5⟩] ∧
    (5 : Rat) ≠ 0 ∧ "A" ≠ "" := by
  refine ⟨?_, ?_, by norm_num, by decide⟩ <;>
    simp [Database.update_item, truthyStr, truthyRat]

/-- C1 (amended): for every row of the table, `Database.update_item` sets
the name to `new_name` exactly when the row matches `old_name` and
`new_name` is provided and truthy (non-`None`, non-empty), and sets the
price to `new_price` exactly when the row matches and `new_price` is
provided and truthy (non-`None`, non-zero); all other fields and rows are
unchanged. In particular `new_price = 0` and `new_name = ""` act like
absent arguments. -/
theorem C1_update_item_characterization (db : Database) (old_name : String)
    (new_name : Option String) (new_price : Option Rat) :
    (Database.update_item db old_name new_name new_price).rows
      = db.rows.map fun r =>
          if r.item = old_name then
            { r with
              item := if truthyStr new_name then new_name.getD r.item
                      else r.item,
              price := if truthyRat new_price then new_price.getD r.price
                       else r.price }
          else r := by
  unfold Database.update_item
  cases hn : truthyStr new_name <;> cases hp : truthyRat new_price <;>
    simp [hn, hp]

/-- C2 (counterexample): the plain-text shopping-list export has no
`try`/`except`, so an I/O error while opening the file is re-raised to the
caller, contrary to the claim that every export catches and logs I/O
errors. -/
theorem C2_counterexample :
    ShoppingCart.export_shopping_list emptyCart (Option.some .fileNotFound)
      = .error .fileNotFound := rfl

/-- C2 (amended): the plain-text shopping-list export propagates every I/O
error to the caller; the JSON cart export catches and logs exactly
`FileNotFoundError` (returning normally) and propagates every other I/O
error. -/
theorem C2_export_error_handling (c : Cart) (e : IOErr) :
    ShoppingCart.export_shopping_list c (Option.some e) = .error e ∧
    ShoppingCart.export_cart_to_json c (Option.some .fileNotFound)
      = .ok Option.none ∧
    (e ≠ .fileNotFound →
      ShoppingCart.export_cart_to_json c (Option.some e) = .error e) := by
  refine ⟨rfl, rfl, fun h => ?_⟩
  cases e <;> simp_all [ShoppingCart.export_cart_to_json]

/-- C2 witness: at `e = permissionDenied` the JSON export re-raises. -/
theorem C2_export_error_handling_witness :
    ShoppingCart.export_cart_to_json emptyCart (Option.some .permissionDenied)
      = .error .permissionDenied :=
  (C2_export_error_handling emptyCart .permissionDenied).2.2 (by decide)

/-- C3: `ShoppingCart.remove_item` removes exactly the first in-memory
entry whose name matches (and none when no entry matches), while the
`Database.remove_item` call it always performs deletes every row with that
name — also when no in-memory match exists. -/
theorem C3_remove_item_semantics (c : Cart) (name : String) :
    (∀ l₁ e l₂, c.items = l₁ ++ e :: l₂ → (∀ x ∈ l₁, x.item ≠ name) →
        e.item = name →
        (ShoppingCart.remove_item c name).items = l₁ ++ l₂) ∧
    ((∀ x ∈ c.items, x.item ≠ name) →
        (ShoppingCart.remove_item c name).items = c.items) ∧
    (∀ r : Row, r ∈ (ShoppingCart.remove_item c name).db.rows ↔
        r ∈ c.db.rows ∧ r.item ≠ name) := by
  refine ⟨fun l₁ e l₂ hsplit h₁ h₂ => ?_, fun h => ?_, fun r => ?_⟩
  · simp only [ShoppingCart.remove_item, hsplit]
    exact removeFirstEntry_first_match l₁ e l₂ name h₁ h₂
  · exact removeFirstEntry_no_match c.items name h
  · simp [ShoppingCart.remove_item, Database.remove_item, List.mem_filter]

/-- C3 witness: removing `"A"` from a cart with entries `A, B` and rows
`A, A, B` keeps only `B` in memory and only the `B` row in the table. -/
theorem C3_remove_item_semantics_witness :
    (ShoppingCart.remove_item
        ⟨[⟨"A", 1, Option.some 1⟩, ⟨"B", 2, Option.some 3⟩],
         ⟨[⟨1, "A", 1⟩, ⟨2, "A", 1⟩, ⟨3, "B", 2⟩]⟩⟩ "A").items
      = [⟨"B", 2, Option.some 3⟩] :=
  (C3_remove_item_semantics
      ⟨[⟨"A", 1, Option.some 1⟩, ⟨"B", 2, Option.some 3⟩],
       ⟨[⟨1, "A", 1⟩, ⟨2, "A", 1⟩, ⟨3, "B", 2⟩]⟩⟩ "A").1
    [] ⟨"A", 1, Option.some 1⟩ [⟨"B", 2, Option.some 3⟩]
    rfl (by simp) rfl

/-- C4: `ShoppingCart.add_item` raises `ValueError` exactly when the name
argument is not a `str` or the price argument is not an `int`/`float`; in
that case the error is returned immediately and the in-memory item list is
unchanged. -/
theorem C4_add_item_validation (c : Cart) (item price : PyVal) :
    ((ShoppingCart.add_item c item price).2 = .error .valueError ↔
      (pyIsStr item = false ∨ pyIsNum price = false)) ∧
    ((ShoppingCart.add_item c item price).2 = .error .valueError →
      (ShoppingCart.add_item c item price).1.items = c.items) := by
  unfold ShoppingCart.add_item ShoppingCart.add_item_run
  cases hs : pyIsStr item <;> cases hp : pyIsNum price <;> simp [hs, hp]

/-- C4 witness: adding with a non-string name fails and leaves the cart
empty. -/
theorem C4_add_item_validation_witness :
    (ShoppingCart.add_item emptyCart (.int 3) (.float 1)).2
        = .error .valueError ∧
    (ShoppingCart.add_item emptyCart (.int 3) (.float 1)).1.items
        = emptyCart.items := by
  have h := C4_add_item_validation emptyCart (.int 3) (.float 1)
  have herr : (ShoppingCart.add_item emptyCart (.int 3) (.float 1)).2
      = .error .valueError := h.1.mpr (Or.inl rfl)
  exact ⟨herr, h.2 herr⟩

/-- C5 (counterexample): when an entry with the same name is already in the
in-memory list, `add_item` followed by `get_item` returns the earlier
entry, not the added one: with `("A", 1)` already present, after
`add_item("A", 2)` the lookup returns price `1 ≠ 2`. -/
theorem C5_counterexample :
    ShoppingCart.get_item
        (ShoppingCart.add_item ⟨[⟨"A", 1, Option.some 1⟩], ⟨[⟨1, "A", 1⟩]⟩⟩
          (.str "A") (.float 2)).1 "A"
      = Option.some ⟨"A", 1, Option.some 1⟩ ∧ (1 : Rat) ≠ 2 := by
  exact ⟨rfl, by norm_num⟩

/-- C5 (amended): for every valid string name and numeric price,
`add_item` followed by `get_item(name)` returns an item with the added name
and price, provided no entry with that name is already in the in-memory
list (e.g. on a fresh cart). -/
theorem C5_add_then_get (c : Cart) (s : String) (p : PyVal)
    (hnum : pyIsNum p = true) (hfresh : ∀ e ∈ c.items, e.item ≠ s) :
    ∃ en, ShoppingCart.get_item (ShoppingCart.add_item c (.str s) p).1 s
        = Option.some en ∧ en.item = s ∧ en.price = pyToRat p := by
  have hadd : (ShoppingCart.add_item c (.str s) p).1.items
      = c.items ++ [⟨s, pyToRat p, Option.some (rowsNextId c.db.rows)⟩] := by
    unfold ShoppingCart.add_item ShoppingCart.add_item_run
    simp [pyIsStr, hnum, pyGetStr, Database.add_item]
  refine ⟨⟨s, pyToRat p, Option.some (rowsNextId c.db.rows)⟩, ?_, rfl, rfl⟩
  unfold ShoppingCart.get_item
  rw [hadd, List.find?_append]
  have h1 : c.items.find? (fun i => i.item == s) = Option.none := by
    rw [List.find?_eq_none]
    intro x hx
    simpa using hfresh x hx
  simp [h1, List.find?]

/-- C5 witness: on a fresh cart, adding `("Apple", 1.2)` and looking it up
returns the added name and price. -/
theorem C5_add_then_get_witness :
    pyIsNum (.float 1.2) = true ∧
    (∃ en, ShoppingCart.get_item
        (ShoppingCart.add_item emptyCart (.str "Apple") (.float 1.2)).1
        "Apple" = Option.some en ∧ en.item = "Apple" ∧
        en.price = pyToRat (.float 1.2)) :=
  ⟨rfl, C5_add_then_get emptyCart "Apple" (.float 1.2) rfl
    (by simp [emptyCart])⟩

/-- The cart after `add_item("Apple", 1.20)` on a fresh cart over an empty
table. -/
def exCart1 : Cart :=
  (ShoppingCart.add_item emptyCart (.str "Apple") (.float 1.2)).1

/-- The previous cart after `add_item("Bread", 2.50)`. -/
def exCart2 : Cart :=
  (ShoppingCart.add_item exCart1 (.str "Bread") (.float 2.5)).1

/-- The previous cart after `remove_item("Apple")`. -/
def exCart3 : Cart :=
  ShoppingCart.remove_item exCart2 "Apple"

/-- C6: starting from an empty cart and empty table, `add("Apple", 1.20)`
returns id 1, `add("Bread", 2.50)` returns id 2, the count is 2 and the
total is 3.70; after `remove("Apple")`, `get("Apple")` is absent and the
total is 2.50. -/
theorem C6_example_run :
    (ShoppingCart.add_item emptyCart (.str "Apple") (.float 1.2)).2
        = .ok 1 ∧
    (ShoppingCart.add_item exCart1 (.str "Bread") (.float 2.5)).2
        = .ok 2 ∧
    ShoppingCart.get_count exCart2 = 2 ∧
    ShoppingCart.get_total_price exCart2 = 3.7 ∧
    ShoppingCart.get_item exCart3 "Apple" = Option.none ∧
    ShoppingCart.get_total_price exCart3 = 2.5 := by
  have hex2 : exCart2
      = ⟨[⟨"Apple", 1.2, Option.some 1⟩, ⟨"Bread", 2.5, Option.some 2⟩],
         ⟨[⟨1, "Apple", 1.2⟩, ⟨2, "Bread", 2.5⟩]⟩⟩ := rfl
  have hex3 : exCart3
      = ⟨[⟨"Bread", 2.5, Option.some 2⟩], ⟨[⟨2, "Bread", 2.5⟩]⟩⟩ := rfl
  refine ⟨rfl, rfl, rfl, ?_, rfl, ?_⟩
  · rw [hex2]
    simp [ShoppingCart.get_total_price]
    norm_num
  · rw [hex3]
    simp [ShoppingCart.get_total_price]

/-- C7: the total price is the sum of the in-memory prices: after adding
prices `p1, …, pn` to a fresh cart the total is their sum, and the total of
an empty cart is 0. -/
theorem C7_total_price (ps : List (String × Rat)) :
    ShoppingCart.get_total_price (addAll emptyCart ps)
        = (ps.map Prod.snd).sum ∧
    ShoppingCart.get_total_price emptyCart = 0 ∧
    (∀ c : Cart,
      ShoppingCart.get_total_price c = (c.items.map Entry.price).sum) := by
  refine ⟨?_, rfl, fun c => rfl⟩
  rw [get_total_price_addAll]
  simp [ShoppingCart.get_total_price, emptyCart]

/-- C8: `update_item` with both `new_name` and `new_price` equal to `None`
returns before touching anything: the cart (mirror and table) is unchanged
and `Database.update_item` is not called (the `false` component). -/
theorem C8_update_item_noop (c : Cart) (old_name : String) :
    ShoppingCart.update_item c old_name Option.none Option.none
      = (c, false) := rfl

/-- C9: `add_item` appends to the in-memory list before the INSERT; in the
run where the INSERT raises, the new entry is left in the list with no
`"id"` key, the table is unchanged, and the exception propagates. -/
theorem C9_add_item_store_failure (c : Cart) (s : String) (q : Rat) :
    (ShoppingCart.add_item_run c (.str s) (.float q) false).1.items
        = c.items ++ [⟨s, q, Option.none⟩] ∧
    (ShoppingCart.add_item_run c (.str s) (.float q) false).1.db = c.db ∧
    (ShoppingCart.add_item_run c (.str s) (.float q) false).2
        = .error .dbError :=
  ⟨rfl, rfl, rfl⟩

/-- C10: the `version < 1` migration copies only the (item, price) columns
in physical order, and the new table assigns ids `1, …, n` sequentially;
ids are not preserved (witness: a table whose only row has id 5). -/
theorem C10_migration_reassigns_ids :
    (∀ old : List Row,
        (Database.update_schema_copy old).map Row.id
            = (List.range old.length).map (· + 1) ∧
        (Database.update_schema_copy old).map (fun r => (r.item, r.price))
            = old.map (fun r => (r.item, r.price))) ∧
    (∃ old : List Row,
        (Database.update_schema_copy old).map Row.id ≠ old.map Row.id) := by
  constructor
  · intro old
    have h := update_schema_copy_aux old [] (by simp)
    simpa [Database.update_schema_copy] using h
  · refine ⟨[⟨5, "A", 1⟩], ?_⟩
    simp [Database.update_schema_copy, rowsNextId]
